import Mathlib

set_option maxHeartbeats 1000000

/-!
Shallow embedding of `tecton_mcp_wrapper.py`, the multi-service process
supervisor of the MCP-Tools repository.  The durable PID file, the
operating-system liveness oracle, the spawner and the signal layer are
modelled explicitly; every controller function is translated from the
source.  Stateful behaviour is explicit state passing over `St`; the
outside world (filesystem existence, process liveness, spawn results,
signal outcomes, write success) is an `Env` of oracles.
-/

/-- Registry of configured MCP services (the `SERVICES` constant). -/
def SERVICES : List String := ["jira", "chronosphere", "linear", "observe"]

/-- PID store mapping: association list from service name to PID, standing
for a Python dict with unique keys (insertion order preserved). -/
abbrev PidMap := List (String × Nat)

/-- Dict lookup: value of the first entry with the given key. -/
def findPid : PidMap → String → Option Nat
  | [], _ => none
  | e :: t, s => if e.1 = s then some e.2 else findPid t s

/-- Dict key deletion (`pids.pop(service)` / `del pids[service]`). -/
def erasePid : PidMap → String → PidMap
  | [], _ => []
  | e :: t, s => if e.1 = s then erasePid t s else e :: erasePid t s

/-- Dict assignment `pids[service] = pid`: replace in place, or append. -/
def setPid : PidMap → String → Nat → PidMap
  | [], s, p => [(s, p)]
  | e :: t, s, p => if e.1 = s then (s, p) :: t else e :: setPid t s p

/-- State of the durable PID file: missing, unparsable JSON, or a mapping. -/
inductive FileState where
  | absent : FileState
  | corrupt : FileState
  | good : PidMap → FileState
deriving DecidableEq

/-- Signals the controller sends (`signal.SIGHUP` for graceful,
`signal.SIGTERM` for forceful). -/
inductive Sig where
  | sighup : Sig
  | sigterm : Sig
deriving DecidableEq

/-- Outcome of an `os.kill` attempt: delivered, `ProcessLookupError`, or a
permission-style exception. -/
inductive KillOutcome where
  | ok : KillOutcome
  | noProcess : KillOutcome
  | permissionDenied : KillOutcome
deriving DecidableEq

/-- Result of a successful `subprocess.Popen`: the child PID, the result of
`proc.poll()` after the one-second grace sleep (`none` means still
running, `some c` means exited with code `c`), and the captured stderr. -/
structure SpawnInfo where
  pid : Nat
  pollAfterGrace : Option Int
  stderrOut : String
deriving DecidableEq

/-- Oracles for the outside world, fixed for one controller invocation. -/
structure Env where
  pathExists : String → Bool
  alive : Nat → Bool
  aliveAfterWait : Nat → Bool
  spawn : String → Option SpawnInfo
  killRes : Nat → Sig → KillOutcome
  saveOk : Bool

/-- Observable state threaded through an invocation: the durable PID file,
the diagnostic lines printed, the payloads of attempted saves, and the
signal-send attempts. -/
structure St where
  file : FileState
  out : List String
  writes : List PidMap
  kills : List (Nat × Sig)
deriving DecidableEq

/-- Warning printed by `load_pids` when the PID file is unparsable. -/
def warnCorrupt : String := "Corrupted PID file, starting fresh"

/-- Warning printed by `save_pids` when the write raises `IOError`. -/
def warnSaveFail : String := "Failed to save PID file"

/-- Message printed when a name is rejected by the command router. -/
def errUnknownService (t : String) : String := "Unknown service: " ++ t

/-- Translation of `load_pids`: absent file yields an empty mapping
silently; an unparsable file yields an empty mapping after a warning. -/
def load_pids (st : St) : PidMap × St :=
  match st.file with
  | FileState.good m => (m, st)
  | FileState.absent => ([], st)
  | FileState.corrupt => ([], { st with out := st.out ++ [warnCorrupt] })

/-- Translation of `save_pids`: record the attempted payload; on success
overwrite the whole file, on `IOError` swallow with a warning. -/
def save_pids (env : Env) (pids : PidMap) (st : St) : St :=
  if env.saveOk then
    { st with file := FileState.good pids, writes := st.writes ++ [pids] }
  else
    { st with writes := st.writes ++ [pids], out := st.out ++ [warnSaveFail] }

/-- Translation of `is_process_running`: the liveness oracle. -/
def is_process_running (env : Env) (pid : Nat) : Bool :=
  env.alive pid

/-- Translation of `cleanup_stale_pids`: load, collect the entries whose
process is not running, delete them, and save only if some were stale. -/
def cleanup_stale_pids (env : Env) (st : St) : PidMap × St :=
  let r := load_pids st
  let stale := r.1.filter (fun e => !(is_process_running env e.2))
  let pids2 := r.1.filter (fun e => is_process_running env e.2)
  if stale.isEmpty then (pids2, r.2) else (pids2, save_pids env pids2 r.2)

/-- Mapping currently held by the durable file (what a load would return). -/
def storeMap (st : St) : PidMap :=
  (load_pids st).1

/-- Translation of `get_server_path`. -/
def get_server_path (service : String) : String :=
  "/Users/jbarr/Projects/tecton-mcp-tools/servers/" ++ service ++ "_server.py"

/-- Translation of `validate_service`: the name must be registered and its
server script must exist on disk. -/
def validate_service (env : Env) (service : String) : Bool :=
  if service ∈ SERVICES then env.pathExists (get_server_path service) else false

/-- Spawn phase of `start_service` (the body of its `try` block): spawn,
sleep the grace second, poll; on survival record the PID and save, on
immediate death print the captured stderr and fail. -/
def start_spawn (env : Env) (service : String) (pids : PidMap) (st : St) : Bool × St :=
  match env.spawn service with
  | none => (false, st)
  | some info =>
    match info.pollAfterGrace with
    | none => (true, save_pids env (setPid pids service info.pid) st)
    | some _ => (false, { st with out := st.out ++ [info.stderrOut] })

/-- Translation of `start_service`: validate, clean the store, return
success if already tracked live, otherwise spawn. -/
def start_service (env : Env) (service : String) (st : St) : Bool × St :=
  if validate_service env service then
    let r := cleanup_stale_pids env st
    match findPid r.1 service with
    | some p =>
      if is_process_running env p then (true, r.2)
      else start_spawn env service (erasePid r.1 service) r.2
    | none => start_spawn env service r.1 r.2
  else (false, st)

/-- Translation of `stop_service`: clean the store; an untracked name is
already stopped; otherwise pop the record, signal (SIGHUP when graceful,
then escalate to SIGTERM if still alive after the two-second wait;
SIGTERM when forceful), and persist the popped mapping.  A
`ProcessLookupError` is treated as already stopped; any other exception
aborts with failure and without saving. -/
def stop_service (env : Env) (service : String) (graceful : Bool) (st : St) : Bool × St :=
  let r := cleanup_stale_pids env st
  match findPid r.1 service with
  | none => (true, r.2)
  | some pid =>
    let pids := erasePid r.1 service
    let sig := if graceful then Sig.sighup else Sig.sigterm
    let st1 := { r.2 with kills := r.2.kills ++ [(pid, sig)] }
    match env.killRes pid sig with
    | KillOutcome.noProcess => (true, save_pids env pids st1)
    | KillOutcome.permissionDenied => (false, st1)
    | KillOutcome.ok =>
      if graceful then
        if env.aliveAfterWait pid then
          let st2 := { st1 with kills := st1.kills ++ [(pid, Sig.sigterm)] }
          match env.killRes pid Sig.sigterm with
          | KillOutcome.noProcess => (true, save_pids env pids st2)
          | KillOutcome.permissionDenied => (false, st2)
          | KillOutcome.ok => (true, save_pids env pids st2)
        else (true, save_pids env pids st1)
      else (true, save_pids env pids st1)

/-- The counting loop shared by the `_all` batch operations: fold the
single-service operation over the names, incrementing a success count. -/
def batchCount (f : String → St → Bool × St) (names : List String) (acc : Nat × St) : Nat × St :=
  names.foldl (fun a service => (a.1 + (if (f service a.2).1 then 1 else 0), (f service a.2).2)) acc

/-- Translation of `start_all`: iterate the registry, count successes,
succeed iff every start succeeded. -/
def start_all (env : Env) (st : St) : Bool × St :=
  let r := batchCount (fun s st1 => start_service env s st1) SERVICES (0, st)
  (r.1 == SERVICES.length, r.2)

/-- Translation of `stop_all`: clean the store; succeed trivially when
nothing is tracked; otherwise iterate the tracked names (`pids.keys()`),
count successes, succeed iff every stop succeeded. -/
def stop_all (env : Env) (graceful : Bool) (st : St) : Bool × St :=
  let r := cleanup_stale_pids env st
  if r.1.isEmpty then (true, r.2)
  else
    let b := batchCount (fun s st1 => stop_service env s graceful st1) (r.1.map Prod.fst) (0, r.2)
    (b.1 == r.1.length, b.2)

/-- Translation of `status` (state effect only): a `cleanup_stale_pids`
pass; the reporting is read-only. -/
def status (env : Env) (st : St) : St :=
  (cleanup_stale_pids env st).2

/-- Translation of `restart`: stop (result discarded), pause, start. -/
def restart (env : Env) (service : String) (graceful : Bool) (st : St) : Bool × St :=
  let r := stop_service env service graceful st
  start_service env service r.2

/-- Translation of `restart_all`: stop_all (result discarded), pause,
start_all; the returned verdict is `start_all`'s alone. -/
def restart_all (env : Env) (graceful : Bool) (st : St) : Bool × St :=
  let r := stop_all env graceful st
  start_all env r.2

/-- Target dispatch shared by the router's commands: `all` runs the batch
operation, a registered name runs the single-service operation, anything
else is rejected with no state change beyond the error line. -/
def routeTarget (target : Option String) (onOne : String → St → Bool × St) (onAll : St → Bool × St) (st : St) : Bool × St :=
  match target with
  | none => (false, st)
  | some t =>
    if t = "all" then onAll st
    else if t ∈ SERVICES then onOne t st
    else (false, { st with out := st.out ++ [errUnknownService t] })

/-- Translation of `main`'s command routing: start, stop, restart, status
and graceful (graceful restart), over one service or `all`. -/
def runCommand (env : Env) (cmd : String) (target : Option String) (st : St) : Bool × St :=
  if cmd = "start" then
    routeTarget target (fun t st1 => start_service env t st1) (fun st1 => start_all env st1) st
  else if cmd = "stop" then
    routeTarget target (fun t st1 => stop_service env t false st1) (fun st1 => stop_all env false st1) st
  else if cmd = "restart" then
    routeTarget target (fun t st1 => restart env t false st1) (fun st1 => restart_all env false st1) st
  else if cmd = "status" then (true, status env st)
  else if cmd = "graceful" then
    routeTarget target (fun t st1 => restart env t true st1) (fun st1 => restart_all env true st1) st
  else (false, st)

/-- Sequential success of a batch: every operation in the list returns
success when run in order on the threaded state. -/
def allSucceedB (f : String → St → Bool × St) : List String → St → Bool
  | [], _ => true
  | s :: rest, st => (f s st).1 && allSucceedB f rest (f s st).2

/-- Formalisation of the claim wording, for comparison with `stop_all`: a
stop-all that iterates the Registry services in their fixed order,
applying the single-service stop to each, succeeding iff all succeed. -/
def stop_all_registryOrder (env : Env) (graceful : Bool) (st : St) : Bool × St :=
  let b := batchCount (fun s st1 => stop_service env s graceful st1) SERVICES (0, st)
  (b.1 == SERVICES.length, b.2)

/-- Baseline oracle set: scripts exist, every PID is alive, spawning is
unavailable, signals deliver, saves succeed. -/
def baseEnv : Env :=
  { pathExists := fun _ => true
    alive := fun _ => true
    aliveAfterWait := fun _ => false
    spawn := fun _ => none
    killRes := fun _ _ => KillOutcome.ok
    saveOk := true }

/-- State with an empty, well-formed PID store. -/
def emptySt : St :=
  { file := FileState.good [], out := [], writes := [], kills := [] }

/-- State tracking jira at PID 42. -/
def jiraSt : St :=
  { file := FileState.good [("jira", 42)], out := [], writes := [], kills := [] }

/-- State tracking the unregistered name slack at PID 100. -/
def slackSt : St :=
  { file := FileState.good [("slack", 100)], out := [], writes := [], kills := [] }

/-- State with a missing PID file. -/
def absentSt : St :=
  { file := FileState.absent, out := [], writes := [], kills := [] }

/-- State with an unparsable PID file. -/
def corruptSt : St :=
  { file := FileState.corrupt, out := [], writes := [], kills := [] }

/-- State tracking jira at PID 1 and chronosphere at PID 2. -/
def twoSt : St :=
  { file := FileState.good [("jira", 1), ("chronosphere", 2)], out := [], writes := [], kills := [] }

/-- Oracles where only PID 2 is alive (PID 1 is stale). -/
def staleEnv : Env :=
  { baseEnv with alive := fun p => p == 2 }

/-- Oracles where a spawned child dies inside the grace second, leaving
diagnostic output on stderr. -/
def spawnFailEnv : Env :=
  { baseEnv with spawn := fun _ => some { pid := 77, pollAfterGrace := some 1, stderrOut := "ModuleNotFoundError" } }

/-- Spawn result of a healthy child: PID 77, still running after the
grace second. -/
def freshSpawn : SpawnInfo :=
  { pid := 77, pollAfterGrace := none, stderrOut := "" }

/-- Oracles where every signal attempt raises a permission exception. -/
def permEnv : Env :=
  { baseEnv with killRes := fun _ _ => KillOutcome.permissionDenied }

/-- Oracles where the target survives the graceful two-second window. -/
def gracefulEnv : Env :=
  { baseEnv with aliveAfterWait := fun _ => true }

/-- Oracles where PID 42 cannot be signalled (permission boundary) while
spawning would succeed. -/
def stubbornEnv : Env :=
  { baseEnv with
      spawn := fun _ => some freshSpawn
      killRes := fun p _ => if p == 42 then KillOutcome.permissionDenied else KillOutcome.ok }

/-- Oracles where signals deliver and spawning yields a healthy child. -/
def relaunchEnv : Env :=
  { baseEnv with spawn := fun _ => some freshSpawn }

/-- Oracles where spawning succeeds but every durable write fails. -/
def noSaveEnv : Env :=
  { baseEnv with saveOk := false, spawn := fun _ => some freshSpawn }

/-- Interleaving of two overlapping controller invocations over the shared
PID file, each performing the unguarded load-modify-save cycle of
`stop_service`: invocation A stops jira, invocation B stops chronosphere,
and B performs its load before A performs its save. -/
def raceFinal : St :=
  let mA := (load_pids twoSt).1
  let mB := (load_pids twoSt).1
  let stA := save_pids baseEnv (erasePid mA "jira") twoSt
  save_pids baseEnv (erasePid mB "chronosphere") stA

/-! Helper lemmas about the dict operations and the store primitives. -/

theorem findPid_filter_some (m : PidMap) (s : String) (p : Nat) (q : String × Nat → Bool)
    (h : findPid m s = some p) (hq : q (s, p) = true) :
    findPid (m.filter q) s = some p := by
  induction m with
  | nil => simp [findPid] at h
  | cons e t ih =>
    by_cases he : e.1 = s
    · have hv : e.2 = p := by
        simp [findPid, he] at h
        exact h
      have : e = (s, p) := by
        cases e
        simp_all
      subst this
      simp only [List.filter_cons, hq]
      simp [findPid]
    · have ht : findPid t s = some p := by
        simpa [findPid, he] using h
      rcases hqe : q e with hf | htq
      · simpa [List.filter_cons, hqe] using ih ht
      · simp only [List.filter_cons, hqe]
        simpa [findPid, he] using ih ht

theorem findPid_filter_none (m : PidMap) (s : String) (q : String × Nat → Bool)
    (h : findPid m s = none) :
    findPid (m.filter q) s = none := by
  induction m with
  | nil => simp [findPid]
  | cons e t ih =>
    have he : ¬ e.1 = s := by
      intro hc
      simp [findPid, hc] at h
    have ht : findPid t s = none := by
      simpa [findPid, he] using h
    rcases hqe : q e with hf | htq
    · simpa [List.filter_cons, hqe] using ih ht
    · simp only [List.filter_cons, hqe]
      simpa [findPid, he] using ih ht

theorem findPid_erase_self (m : PidMap) (s : String) :
    findPid (erasePid m s) s = none := by
  induction m with
  | nil => simp [erasePid, findPid]
  | cons e t ih =>
    by_cases he : e.1 = s
    · simpa [erasePid, he] using ih
    · simpa [erasePid, findPid, he] using ih

theorem mem_erasePid (m : PidMap) (s : String) (e : String × Nat)
    (h : e ∈ erasePid m s) : e ∈ m := by
  induction m with
  | nil => simp [erasePid] at h
  | cons a t ih =>
    by_cases ha : a.1 = s
    · simp only [erasePid, if_pos ha] at h
      exact List.mem_cons_of_mem a (ih h)
    · simp only [erasePid, if_neg ha] at h
      rcases List.mem_cons.mp h with h1 | h2
      · exact h1 ▸ List.mem_cons_self a t
      · exact List.mem_cons_of_mem a (ih h2)

theorem findPid_setPid_self (m : PidMap) (s : String) (p : Nat) :
    findPid (setPid m s p) s = some p := by
  induction m with
  | nil => simp [setPid, findPid]
  | cons e t ih =>
    by_cases he : e.1 = s
    · simp [setPid, he, findPid]
    · simpa [setPid, findPid, he] using ih

theorem load_pids_fst (st : St) : (load_pids st).1 = storeMap st := rfl

theorem load_pids_file (st : St) : (load_pids st).2.file = st.file := by
  cases h : st.file <;> simp [load_pids, h]

theorem load_pids_writes (st : St) : (load_pids st).2.writes = st.writes := by
  cases h : st.file <;> simp [load_pids, h]

theorem load_pids_kills (st : St) : (load_pids st).2.kills = st.kills := by
  cases h : st.file <;> simp [load_pids, h]

theorem save_pids_kills (env : Env) (pids : PidMap) (st : St) :
    (save_pids env pids st).kills = st.kills := by
  unfold save_pids
  split <;> rfl

theorem save_pids_writes (env : Env) (pids : PidMap) (st : St) :
    (save_pids env pids st).writes = st.writes ++ [pids] := by
  unfold save_pids
  split <;> rfl

theorem save_pids_file_ok (env : Env) (pids : PidMap) (st : St)
    (h : env.saveOk = true) : (save_pids env pids st).file = FileState.good pids := by
  simp [save_pids, h]

theorem save_pids_file_fail (env : Env) (pids : PidMap) (st : St)
    (h : env.saveOk = false) : (save_pids env pids st).file = st.file := by
  simp [save_pids, h]

theorem save_pids_out_fail (env : Env) (pids : PidMap) (st : St)
    (h : env.saveOk = false) : (save_pids env pids st).out = st.out ++ [warnSaveFail] := by
  simp [save_pids, h]

theorem cleanup_fst (env : Env) (st : St) :
    (cleanup_stale_pids env st).1 = (storeMap st).filter (fun e => env.alive e.2) := by
  simp only [cleanup_stale_pids, storeMap, is_process_running]
  split <;> rfl

theorem cleanup_kills (env : Env) (st : St) :
    (cleanup_stale_pids env st).2.kills = st.kills := by
  simp only [cleanup_stale_pids, is_process_running]
  split
  · exact load_pids_kills st
  · rw [save_pids_kills]
    exact load_pids_kills st

theorem cleanup_nostale (env : Env) (st : St)
    (h : (storeMap st).filter (fun e => !(env.alive e.2)) = []) :
    (cleanup_stale_pids env st).2 = (load_pids st).2 := by
  simp only [cleanup_stale_pids, is_process_running]
  have hE : ((load_pids st).1.filter (fun e => !(env.alive e.2))).isEmpty = true := by
    rw [List.isEmpty_iff]
    exact h
  simp only [hE, if_true]

theorem cleanup_file_savefail (env : Env) (st : St) (h : env.saveOk = false) :
    (cleanup_stale_pids env st).2.file = st.file := by
  simp only [cleanup_stale_pids, is_process_running]
  split
  · exact load_pids_file st
  · rw [save_pids_file_fail env _ _ h]
    exact load_pids_file st

theorem cleanup_good (env : Env) (st : St) (m : PidMap)
    (hm : st.file = FileState.good m) (hs : env.saveOk = true) :
    (cleanup_stale_pids env st).1 = m.filter (fun e => env.alive e.2) ∧
    (cleanup_stale_pids env st).2.file = FileState.good (m.filter (fun e => env.alive e.2)) ∧
    (cleanup_stale_pids env st).2.kills = st.kills ∧
    (cleanup_stale_pids env st).2.out = st.out := by
  have hload : load_pids st = (m, st) := by simp [load_pids, hm]
  simp only [cleanup_stale_pids, is_process_running, hload]
  split
  next hE =>
    have hall : ∀ e ∈ m, env.alive e.2 = true := by
      intro e he
      have := (List.filter_eq_nil_iff.mp (List.isEmpty_iff.mp hE)) e he
      simpa using this
    have hfe : m.filter (fun e => env.alive e.2) = m :=
      List.filter_eq_self.mpr hall
    simp [hfe, hm]
  next hE =>
    refine ⟨rfl, save_pids_file_ok env _ _ hs, save_pids_kills env _ _, by simp [save_pids, hs]⟩

theorem cleanup_all_alive (env : Env) (st : St) (m : PidMap)
    (hm : st.file = FileState.good m) (hall : ∀ e ∈ m, env.alive e.2 = true) :
    cleanup_stale_pids env st = (m, st) := by
  have hload : load_pids st = (m, st) := by simp [load_pids, hm]
  simp only [cleanup_stale_pids, is_process_running, hload]
  have hnil : m.filter (fun e => !(env.alive e.2)) = [] := by
    rw [List.filter_eq_nil_iff]
    intro e he
    simp [hall e he]
  have hfe : m.filter (fun e => env.alive e.2) = m := List.filter_eq_self.mpr hall
  simp only [hnil, List.isEmpty_nil, if_true, hfe]

theorem batchCount_cons (f : String → St → Bool × St) (s : String) (rest : List String) (c : Nat) (st : St) :
    batchCount f (s :: rest) (c, st)
      = batchCount f rest (c + (if (f s st).1 then 1 else 0), (f s st).2) := rfl

theorem batchCount_shift (f : String → St → Bool × St) (names : List String) :
    ∀ c st, batchCount f names (c, st)
      = (c + (batchCount f names (0, st)).1, (batchCount f names (0, st)).2) := by
  induction names with
  | nil => intro c st; simp [batchCount]
  | cons s rest ih =>
    intro c st
    rw [batchCount_cons, batchCount_cons]
    rw [ih (c + (if (f s st).1 then 1 else 0)) (f s st).2,
        ih (0 + (if (f s st).1 then 1 else 0)) (f s st).2]
    simp [Nat.add_assoc]

theorem batchCount_le (f : String → St → Bool × St) (names : List String) :
    ∀ st, (batchCount f names (0, st)).1 ≤ names.length := by
  induction names with
  | nil => intro st; simp [batchCount]
  | cons s rest ih =>
    intro st
    rw [batchCount_cons, batchCount_shift]
    have h := ih (f s st).2
    cases hb : (f s st).1 <;> simp [hb] <;> omega

theorem batchCount_full_iff (f : String → St → Bool × St) (names : List String) :
    ∀ st, ((batchCount f names (0, st)).1 = names.length ↔ allSucceedB f names st = true) := by
  induction names with
  | nil => intro st; simp [batchCount, allSucceedB]
  | cons s rest ih =>
    intro st
    rw [batchCount_cons, batchCount_shift]
    have hle := batchCount_le f rest (f s st).2
    have hiff := ih (f s st).2
    simp only [allSucceedB, List.length_cons]
    cases hb : (f s st).1
    · simp only [Bool.false_and]
      constructor
      · intro h
        simp at h
        omega
      · intro h
        simp at h
    · simp only [Bool.true_and, hb, if_true]
      constructor
      · intro h
        apply hiff.mp
        simp at h
        omega
      · intro h
        have := hiff.mpr h
        simp
        omega

/-! Claim theorems. -/

theorem cleanup_withstale (env : Env) (st : St)
    (h : (storeMap st).filter (fun e => !(env.alive e.2)) ≠ []) :
    (cleanup_stale_pids env st).2
      = save_pids env ((storeMap st).filter (fun e => env.alive e.2)) (load_pids st).2 := by
  simp only [cleanup_stale_pids, is_process_running]
  cases hE : ((load_pids st).1.filter (fun e => !(env.alive e.2))).isEmpty
  · simp [hE, storeMap]
  · exact absurd (List.isEmpty_iff.mp hE) h

/-- C1: each controller operation — start, stop, restart, graceful
restart — handed an unregistered service name through the command router
returns failure, and the durable PID store is byte-for-byte unchanged: no
write is attempted and no signal is sent; `start_service` itself also
rejects an unregistered name with no state change at all. -/
theorem unregistered_name_rejected (env : Env) (st : St) (t : String)
    (h1 : t ∉ SERVICES) (h2 : t ≠ "all") :
    ((runCommand env "start" (some t) st).1 = false ∧
      (runCommand env "start" (some t) st).2.file = st.file ∧
      (runCommand env "start" (some t) st).2.writes = st.writes ∧
      (runCommand env "start" (some t) st).2.kills = st.kills) ∧
    ((runCommand env "stop" (some t) st).1 = false ∧
      (runCommand env "stop" (some t) st).2.file = st.file ∧
      (runCommand env "stop" (some t) st).2.writes = st.writes ∧
      (runCommand env "stop" (some t) st).2.kills = st.kills) ∧
    ((runCommand env "restart" (some t) st).1 = false ∧
      (runCommand env "restart" (some t) st).2.file = st.file ∧
      (runCommand env "restart" (some t) st).2.writes = st.writes ∧
      (runCommand env "restart" (some t) st).2.kills = st.kills) ∧
    ((runCommand env "graceful" (some t) st).1 = false ∧
      (runCommand env "graceful" (some t) st).2.file = st.file ∧
      (runCommand env "graceful" (some t) st).2.writes = st.writes ∧
      (runCommand env "graceful" (some t) st).2.kills = st.kills) ∧
    start_service env t st = (false, st) := by
  have hroute : ∀ onOne onAll,
      routeTarget (some t) onOne onAll st
        = (false, { st with out := st.out ++ [errUnknownService t] }) := by
    intro onOne onAll
    simp [routeTarget, h1, h2]
  have hstart : runCommand env "start" (some t) st
      = routeTarget (some t) (fun t1 st1 => start_service env t1 st1) (fun st1 => start_all env st1) st := rfl
  have hstop : runCommand env "stop" (some t) st
      = routeTarget (some t) (fun t1 st1 => stop_service env t1 false st1) (fun st1 => stop_all env false st1) st := rfl
  have hrestart : runCommand env "restart" (some t) st
      = routeTarget (some t) (fun t1 st1 => restart env t1 false st1) (fun st1 => restart_all env false st1) st := rfl
  have hgrace : runCommand env "graceful" (some t) st
      = routeTarget (some t) (fun t1 st1 => restart env t1 true st1) (fun st1 => restart_all env true st1) st := rfl
  refine ⟨?_, ?_, ?_, ?_, ?_⟩
  · rw [hstart, hroute]
    exact ⟨rfl, rfl, rfl, rfl⟩
  · rw [hstop, hroute]
    exact ⟨rfl, rfl, rfl, rfl⟩
  · rw [hrestart, hroute]
    exact ⟨rfl, rfl, rfl, rfl⟩
  · rw [hgrace, hroute]
    exact ⟨rfl, rfl, rfl, rfl⟩
  · simp [start_service, validate_service, h1]

/-- Witness for C1 at the unregistered name bogus. -/
theorem unregistered_name_rejected_witness :
    ("bogus" ∉ SERVICES) ∧ ("bogus" ≠ "all") ∧
    (runCommand baseEnv "stop" (some "bogus") emptySt).1 = false ∧
    (runCommand baseEnv "stop" (some "bogus") emptySt).2.file = emptySt.file :=
  ⟨by decide, by decide,
   (unregistered_name_rejected baseEnv emptySt "bogus" (by decide) (by decide)).2.1.1,
   (unregistered_name_rejected baseEnv emptySt "bogus" (by decide) (by decide)).2.1.2.1⟩

/-- C2: `cleanup_stale_pids` returns exactly the live entries of the loaded
mapping; when no entry is stale it performs zero writes and leaves the
file untouched; when at least one entry is stale it writes the pruned
mapping, which becomes the persisted store when the write succeeds. -/
theorem cleanup_stale_exact (env : Env) (st : St) :
    (cleanup_stale_pids env st).1 = (storeMap st).filter (fun e => env.alive e.2) ∧
    ((∀ e ∈ storeMap st, env.alive e.2 = true) →
      (cleanup_stale_pids env st).2.writes = st.writes ∧
      (cleanup_stale_pids env st).2.file = st.file) ∧
    ((¬ ∀ e ∈ storeMap st, env.alive e.2 = true) →
      (cleanup_stale_pids env st).2.writes
          = st.writes ++ [(storeMap st).filter (fun e => env.alive e.2)] ∧
      (env.saveOk = true →
        (cleanup_stale_pids env st).2.file
            = FileState.good ((storeMap st).filter (fun e => env.alive e.2)))) := by
  refine ⟨cleanup_fst env st, ?_, ?_⟩
  · intro hall
    have hnil : (storeMap st).filter (fun e => !(env.alive e.2)) = [] := by
      rw [List.filter_eq_nil_iff]
      intro e he
      simp [hall e he]
    rw [cleanup_nostale env st hnil]
    exact ⟨load_pids_writes st, load_pids_file st⟩
  · intro hcon
    have hne : (storeMap st).filter (fun e => !(env.alive e.2)) ≠ [] := by
      intro hnil
      apply hcon
      intro e he
      have := List.filter_eq_nil_iff.mp hnil e he
      simpa using this
    rw [cleanup_withstale env st hne]
    refine ⟨?_, ?_⟩
    · rw [save_pids_writes, load_pids_writes]
    · intro hs
      exact save_pids_file_ok env _ _ hs

/-- Witness for C2: with jira's PID 1 stale and chronosphere's PID 2 live,
the cleanup writes exactly the pruned mapping. -/
theorem cleanup_stale_exact_witness :
    (¬ ∀ e ∈ storeMap twoSt, staleEnv.alive e.2 = true) ∧
    (cleanup_stale_pids staleEnv twoSt).2.writes
      = twoSt.writes ++ [(storeMap twoSt).filter (fun e => staleEnv.alive e.2)] :=
  ⟨by decide, ((cleanup_stale_exact staleEnv twoSt).2.2 (by decide)).1⟩

/-- C3: a spawned child found dead at the post-grace poll makes start
report failure with the captured stderr surfaced, and no PidRecord is
created — the resulting state is the post-cleanup state plus the printed
diagnostic, and the store file is byte-for-byte the initial one whenever
nothing was stale. -/
theorem start_transient_failure (env : Env) (st : St) (s : String) (info : SpawnInfo) (c : Int)
    (hval : validate_service env s = true)
    (h0 : findPid (cleanup_stale_pids env st).1 s = none)
    (hspawn : env.spawn s = some info)
    (hdied : info.pollAfterGrace = some c) :
    (start_service env s st).1 = false ∧
    (start_service env s st).2.file = (cleanup_stale_pids env st).2.file ∧
    (start_service env s st).2.writes = (cleanup_stale_pids env st).2.writes ∧
    (start_service env s st).2.out = (cleanup_stale_pids env st).2.out ++ [info.stderrOut] ∧
    ((∀ e ∈ storeMap st, env.alive e.2 = true) → (start_service env s st).2.file = st.file) := by
  have hbr : start_service env s st
      = (false, { (cleanup_stale_pids env st).2 with
                    out := (cleanup_stale_pids env st).2.out ++ [info.stderrOut] }) := by
    simp only [start_service, hval, if_true, h0, start_spawn, hspawn, hdied]
  rw [hbr]
  refine ⟨rfl, rfl, rfl, rfl, ?_⟩
  intro hall
  have hnil : (storeMap st).filter (fun e => !(env.alive e.2)) = [] := by
    rw [List.filter_eq_nil_iff]
    intro e he
    simp [hall e he]
  show (cleanup_stale_pids env st).2.file = st.file
  rw [cleanup_nostale env st hnil]
  exact load_pids_file st

/-- Witness for C3: a jira child that dies inside the grace second. -/
theorem start_transient_failure_witness :
    validate_service spawnFailEnv "jira" = true ∧
    (start_service spawnFailEnv "jira" emptySt).1 = false ∧
    (start_service spawnFailEnv "jira" emptySt).2.file = emptySt.file :=
  ⟨by decide,
   (start_transient_failure spawnFailEnv emptySt "jira"
      { pid := 77, pollAfterGrace := some 1, stderrOut := "ModuleNotFoundError" } 1
      (by decide) (by decide) rfl rfl).1,
   (start_transient_failure spawnFailEnv emptySt "jira"
      { pid := 77, pollAfterGrace := some 1, stderrOut := "ModuleNotFoundError" } 1
      (by decide) (by decide) rfl rfl).2.2.2.2 (by decide)⟩

theorem findPid_mem (m : PidMap) (s : String) (p : Nat)
    (h : findPid m s = some p) : (s, p) ∈ m := by
  induction m with
  | nil => simp [findPid] at h
  | cons e t ih =>
    by_cases he : e.1 = s
    · have hv : e.2 = p := by
        simpa [findPid, he] using h
      have : e = (s, p) := by
        cases e
        simp_all
      rw [this]
      exact List.mem_cons_self _ _
    · have ht : findPid t s = some p := by
        simpa [findPid, he] using h
      exact List.mem_cons_of_mem e (ih ht)

/-- Counterexample for C4: with only the unregistered name slack tracked at
PID 100, the code's `stop_all` signals PID 100 and empties the store,
while a stop-all iterating the Registry's services — what the claim
states — sends no signal and leaves slack tracked.  So the batch stop
does not iterate the registry's services. -/
theorem stop_all_not_registry_order_cex :
    ¬ ("slack" ∈ SERVICES) ∧
    (stop_all baseEnv false slackSt).2.kills = [(100, Sig.sigterm)] ∧
    (stop_all baseEnv false slackSt).2.file = FileState.good [] ∧
    (stop_all_registryOrder baseEnv false slackSt).2.kills = [] ∧
    (stop_all_registryOrder baseEnv false slackSt).2.file = FileState.good [("slack", 100)] :=
  ⟨by decide, by decide, by decide, by decide, by decide⟩

/-- C4 amended: `start_all` iterates the Registry's services in their fixed
order and succeeds iff every start succeeds; `stop_all` iterates the
tracked services of the cleaned store in store order and succeeds iff
every one of those stops succeeds (trivially when none is tracked);
`restart_all` is stop_all then start_all and returns `start_all`'s verdict
alone; in each batch every listed service is processed in sequence, so a
single failure does not abort the remainder. -/
theorem batch_operations_semantics (env : Env) (st : St) (g : Bool) :
    ((start_all env st).1 = true
        ↔ allSucceedB (fun s st1 => start_service env s st1) SERVICES st = true) ∧
    ((stop_all env g st).1 = true
        ↔ ((cleanup_stale_pids env st).1 = [] ∨
            allSucceedB (fun s st1 => stop_service env s g st1)
              ((cleanup_stale_pids env st).1.map Prod.fst) (cleanup_stale_pids env st).2 = true)) ∧
    restart_all env g st = start_all env (stop_all env g st).2 := by
  refine ⟨?_, ?_, rfl⟩
  · simp only [start_all, beq_iff_eq]
    exact batchCount_full_iff _ SERVICES st
  · simp only [stop_all]
    split
    next hE =>
      have hnil := List.isEmpty_iff.mp hE
      simp [hnil]
    next hE =>
      have hne : (cleanup_stale_pids env st).1 ≠ [] := by
        intro hc
        exact hE (List.isEmpty_iff.mpr hc)
      have hfull := batchCount_full_iff (fun s st1 => stop_service env s g st1)
        ((cleanup_stale_pids env st).1.map Prod.fst) (cleanup_stale_pids env st).2
      rw [List.length_map] at hfull
      simp only [beq_iff_eq]
      constructor
      · intro h
        exact Or.inr (hfull.mp h)
      · intro h
        rcases h with h | h
        · exact absurd h hne
        · exact hfull.mpr h

/-- Witness for C4 at the concrete slack-tracking store. -/
theorem batch_operations_semantics_witness :
    allSucceedB (fun s st1 => stop_service baseEnv s false st1)
      ((cleanup_stale_pids baseEnv slackSt).1.map Prod.fst)
      (cleanup_stale_pids baseEnv slackSt).2 = true ∧
    (stop_all baseEnv false slackSt).1 = true :=
  ⟨by decide, (batch_operations_semantics baseEnv slackSt false).2.1.mpr (Or.inr (by decide))⟩

theorem storeMap_good (st : St) (m : PidMap) (hm : st.file = FileState.good m) :
    storeMap st = m := by
  simp [storeMap, load_pids, hm]

theorem stop_untracked (env : Env) (st : St) (s : String) (g : Bool)
    (hfind : findPid (cleanup_stale_pids env st).1 s = none) :
    stop_service env s g st = (true, (cleanup_stale_pids env st).2) := by
  simp only [stop_service, hfind]

theorem stop_forceful_tracked (env : Env) (st : St) (p : Nat) (s : String)
    (hfind : findPid (cleanup_stale_pids env st).1 s = some p)
    (hkill : env.killRes p Sig.sigterm ≠ KillOutcome.permissionDenied) :
    stop_service env s false st
      = (true, save_pids env (erasePid (cleanup_stale_pids env st).1 s)
          { (cleanup_stale_pids env st).2 with
              kills := (cleanup_stale_pids env st).2.kills ++ [(p, Sig.sigterm)] }) := by
  simp only [stop_service, hfind, Bool.false_eq_true, if_false]
  cases hk : env.killRes p Sig.sigterm with
  | ok => simp [hk]
  | noProcess => simp [hk]
  | permissionDenied => exact absurd hk hkill

/-- Counterexample for C5: jira is tracked with live PID 42, but the
termination signal hits a permission boundary; the first stop call
returns failure, so two consecutive stops do not both succeed. -/
theorem stop_idempotent_cex :
    findPid (storeMap jiraSt) "jira" = some 42 ∧
    permEnv.alive 42 = true ∧
    (stop_service permEnv "jira" false jiraSt).1 = false :=
  ⟨by decide, by decide, by decide⟩

/-- C5 amended: provided signal delivery never fails on a permission
boundary and store writes succeed, stop is idempotent on every service:
two consecutive stops both succeed and leave the service with no record in
the durable store; and a stop of a service that has no record succeeds
without sending any signal. -/
theorem stop_idempotent (env : Env) (st : St) (m : PidMap) (s : String)
    (hm : st.file = FileState.good m) (hsave : env.saveOk = true)
    (hkill : ∀ p g, env.killRes p g ≠ KillOutcome.permissionDenied) :
    (stop_service env s false st).1 = true ∧
    (stop_service env s false (stop_service env s false st).2).1 = true ∧
    findPid (storeMap (stop_service env s false (stop_service env s false st).2).2) s = none ∧
    (findPid m s = none → (stop_service env s false st).2.kills = st.kills) := by
  obtain ⟨hc1, hc2, hc3, hc4⟩ := cleanup_good env st m hm hsave
  cases hfind : findPid (cleanup_stale_pids env st).1 s with
  | none =>
    have hstop1 := stop_untracked env st s false hfind
    have hall2 : ∀ e ∈ m.filter (fun e => env.alive e.2), env.alive e.2 = true := by
      intro e he
      exact (List.mem_filter.mp he).2
    have hclean2 := cleanup_all_alive env (cleanup_stale_pids env st).2 _ hc2 hall2
    have hfind2 : findPid (cleanup_stale_pids env (cleanup_stale_pids env st).2).1 s = none := by
      rw [hclean2]
      show findPid (m.filter (fun e => env.alive e.2)) s = none
      rw [← hc1]
      exact hfind
    have hstop2 := stop_untracked env (cleanup_stale_pids env st).2 s false hfind2
    rw [hstop1]
    dsimp only
    rw [hstop2]
    refine ⟨rfl, rfl, ?_, fun _ => hc3⟩
    dsimp only
    rw [hclean2]
    dsimp only
    rw [storeMap_good _ _ hc2, ← hc1]
    exact hfind
  | some p =>
    have hstop1 := stop_forceful_tracked env st p s hfind (hkill p Sig.sigterm)
    have hfile2 : (save_pids env (erasePid (cleanup_stale_pids env st).1 s)
        { (cleanup_stale_pids env st).2 with
            kills := (cleanup_stale_pids env st).2.kills ++ [(p, Sig.sigterm)] }).file
        = FileState.good (erasePid (cleanup_stale_pids env st).1 s) :=
      save_pids_file_ok env _ _ hsave
    have hall2 : ∀ e ∈ erasePid (cleanup_stale_pids env st).1 s, env.alive e.2 = true := by
      intro e he
      have hedge := mem_erasePid _ _ _ he
      rw [hc1] at hedge
      exact (List.mem_filter.mp hedge).2
    have hclean2 := cleanup_all_alive env _ _ hfile2 hall2
    have hfind2 : findPid (cleanup_stale_pids env (save_pids env (erasePid (cleanup_stale_pids env st).1 s)
        { (cleanup_stale_pids env st).2 with
            kills := (cleanup_stale_pids env st).2.kills ++ [(p, Sig.sigterm)] })).1 s = none := by
      rw [hclean2]
      exact findPid_erase_self _ _
    have hstop2 := stop_untracked env _ s false hfind2
    rw [hstop1]
    dsimp only
    rw [hstop2]
    refine ⟨rfl, rfl, ?_, ?_⟩
    · dsimp only
      rw [hclean2]
      dsimp only
      rw [storeMap_good _ _ hfile2]
      exact findPid_erase_self _ _
    · intro hnone
      have hn : findPid (m.filter (fun e => env.alive e.2)) s = none :=
        findPid_filter_none m s _ hnone
      rw [← hc1, hfind] at hn
      simp at hn

/-- Witness for C5 on jira tracked at PID 42 with deliverable signals. -/
theorem stop_idempotent_witness :
    (stop_service baseEnv "jira" false jiraSt).1 = true ∧
    findPid (storeMap (stop_service baseEnv "jira" false (stop_service baseEnv "jira" false jiraSt).2).2) "jira" = none :=
  ⟨(stop_idempotent baseEnv jiraSt [("jira", 42)] "jira" rfl rfl (fun _ _ h => by cases h)).1,
   (stop_idempotent baseEnv jiraSt [("jira", 42)] "jira" rfl rfl (fun _ _ h => by cases h)).2.2.1⟩

/-- C6: a graceful stop of a tracked service whose process is observed
still alive after the bounded two-second wait window escalates: the
graceful SIGHUP attempt is followed by a forceful SIGTERM attempt, so the
target is never left signalled only gracefully while observed alive after
the window. -/
theorem graceful_stop_escalates (env : Env) (st : St) (s : String) (p : Nat)
    (hfind : findPid (cleanup_stale_pids env st).1 s = some p)
    (hk1 : env.killRes p Sig.sighup = KillOutcome.ok)
    (hw : env.aliveAfterWait p = true) :
    (stop_service env s true st).2.kills
      = st.kills ++ [(p, Sig.sighup), (p, Sig.sigterm)] := by
  cases hk2 : env.killRes p Sig.sigterm <;>
    simp [stop_service, hfind, hk1, hk2, hw, save_pids_kills, cleanup_kills,
      List.append_assoc]

/-- Witness for C6: jira at PID 42 ignores the graceful signal and is
still alive after the wait, so SIGTERM follows SIGHUP. -/
theorem graceful_stop_escalates_witness :
    findPid (cleanup_stale_pids gracefulEnv jiraSt).1 "jira" = some 42 ∧
    (stop_service gracefulEnv "jira" true jiraSt).2.kills
      = jiraSt.kills ++ [(42, Sig.sighup), (42, Sig.sigterm)] :=
  ⟨by decide, graceful_stop_escalates gracefulEnv jiraSt "jira" 42 (by decide) rfl rfl⟩

/-- Counterexample for C7: jira is tracked at live PID 42; the stop phase
fails on a permission boundary (its result is discarded by restart), and
the start phase finds jira still tracked live and reports success.  The
restart returns success while jira stays tracked at the very same PID 42,
although the relaunch oracle would have produced a healthy child: the
relaunch was never reached, and no failure was reported. -/
theorem restart_same_pid_cex :
    findPid (storeMap jiraSt) "jira" = some 42 ∧
    (restart stubbornEnv "jira" false jiraSt).1 = true ∧
    findPid (storeMap (restart stubbornEnv "jira" false jiraSt).2) "jira" = some 42 ∧
    stubbornEnv.spawn "jira" = some freshSpawn ∧
    freshSpawn.pollAfterGrace = none :=
  ⟨by decide, by decide, by decide, by decide, by decide⟩

/-- C7 amended: for a service tracked with a live PID p, if the stop
phase's forceful signal is deliverable, store writes succeed, the name
validates, and the relaunch spawns a child that survives the grace
second, then restart succeeds and leaves the service tracked with the
freshly spawned PID; whenever that PID differs from p (no immediate PID
reuse by the operating system), the tracked PID differs from p. -/
theorem restart_fresh_pid (env : Env) (st : St) (m : PidMap) (s : String) (p : Nat) (info : SpawnInfo)
    (hm : st.file = FileState.good m) (htr : findPid m s = some p)
    (halive : env.alive p = true) (hsave : env.saveOk = true)
    (hkill : env.killRes p Sig.sigterm ≠ KillOutcome.permissionDenied)
    (hval : validate_service env s = true)
    (hspawn : env.spawn s = some info) (hpoll : info.pollAfterGrace = none) :
    (restart env s false st).1 = true ∧
    findPid (storeMap (restart env s false st).2) s = some info.pid ∧
    (info.pid ≠ p → findPid (storeMap (restart env s false st).2) s ≠ some p) := by
  obtain ⟨hc1, hc2, hc3, hc4⟩ := cleanup_good env st m hm hsave
  have hfind : findPid (cleanup_stale_pids env st).1 s = some p := by
    rw [hc1]
    exact findPid_filter_some m s p _ htr (by simpa using halive)
  have hstop := stop_forceful_tracked env st p s hfind hkill
  have hfile2 : (save_pids env (erasePid (cleanup_stale_pids env st).1 s)
      { (cleanup_stale_pids env st).2 with
          kills := (cleanup_stale_pids env st).2.kills ++ [(p, Sig.sigterm)] }).file
      = FileState.good (erasePid (cleanup_stale_pids env st).1 s) :=
    save_pids_file_ok env _ _ hsave
  have hall2 : ∀ e ∈ erasePid (cleanup_stale_pids env st).1 s, env.alive e.2 = true := by
    intro e he
    have hedge := mem_erasePid _ _ _ he
    rw [hc1] at hedge
    exact (List.mem_filter.mp hedge).2
  have hclean2 := cleanup_all_alive env _ _ hfile2 hall2
  have hstart : start_service env s (save_pids env (erasePid (cleanup_stale_pids env st).1 s)
      { (cleanup_stale_pids env st).2 with
          kills := (cleanup_stale_pids env st).2.kills ++ [(p, Sig.sigterm)] })
      = (true, save_pids env
          (setPid (erasePid (cleanup_stale_pids env st).1 s) s info.pid)
          (save_pids env (erasePid (cleanup_stale_pids env st).1 s)
            { (cleanup_stale_pids env st).2 with
                kills := (cleanup_stale_pids env st).2.kills ++ [(p, Sig.sigterm)] })) := by
    simp only [start_service, hval, if_true, hclean2, findPid_erase_self,
      start_spawn, hspawn, hpoll]
  have hres : restart env s false st = (true, save_pids env
      (setPid (erasePid (cleanup_stale_pids env st).1 s) s info.pid)
      (save_pids env (erasePid (cleanup_stale_pids env st).1 s)
        { (cleanup_stale_pids env st).2 with
            kills := (cleanup_stale_pids env st).2.kills ++ [(p, Sig.sigterm)] })) := by
    simp only [restart, hstop]
    exact hstart
  rw [hres]
  have hsm : storeMap (save_pids env
      (setPid (erasePid (cleanup_stale_pids env st).1 s) s info.pid)
      (save_pids env (erasePid (cleanup_stale_pids env st).1 s)
        { (cleanup_stale_pids env st).2 with
            kills := (cleanup_stale_pids env st).2.kills ++ [(p, Sig.sigterm)] }))
      = setPid (erasePid (cleanup_stale_pids env st).1 s) s info.pid :=
    storeMap_good _ _ (save_pids_file_ok env _ _ hsave)
  refine ⟨rfl, ?_, ?_⟩
  · dsimp only
    rw [hsm]
    exact findPid_setPid_self _ _ _
  · intro hne h
    dsimp only at h
    rw [hsm, findPid_setPid_self] at h
    exact hne (Option.some.inj h)

/-- Witness for C7: jira tracked at live PID 42 restarts onto the fresh
child PID 77. -/
theorem restart_fresh_pid_witness :
    (restart relaunchEnv "jira" false jiraSt).1 = true ∧
    findPid (storeMap (restart relaunchEnv "jira" false jiraSt).2) "jira" = some 77 :=
  ⟨(restart_fresh_pid relaunchEnv jiraSt [("jira", 42)] "jira" 42 freshSpawn
      rfl (by decide) rfl rfl (fun h => by cases h) (by decide) rfl rfl).1,
   (restart_fresh_pid relaunchEnv jiraSt [("jira", 42)] "jira" 42 freshSpawn
      rfl (by decide) rfl rfl (fun h => by cases h) (by decide) rfl rfl).2.1⟩

/-- Counterexample for C8: with the PID file absent, load returns the
empty mapping but emits no warning at all — the printed output is
unchanged — whereas the claim states a warning is emitted for an absent
file as well as for an unparsable one. -/
theorem load_absent_silent_cex :
    absentSt.file = FileState.absent ∧
    load_pids absentSt = ([], absentSt) ∧
    (load_pids absentSt).2.out = absentSt.out :=
  ⟨rfl, rfl, rfl⟩

/-- C8 amended: an absent PID file loads as the empty mapping silently; an
unparsable PID file loads as the empty mapping after a non-fatal warning;
in both cases no operation is blocked: a subsequent cleanup proceeds on
the empty mapping and performs no write. -/
theorem load_selfheal (env : Env) (st : St) :
    (st.file = FileState.absent → load_pids st = ([], st)) ∧
    (st.file = FileState.corrupt →
      (load_pids st).1 = [] ∧
      (load_pids st).2.out = st.out ++ [warnCorrupt] ∧
      (load_pids st).2.file = st.file) ∧
    ((st.file = FileState.absent ∨ st.file = FileState.corrupt) →
      (cleanup_stale_pids env st).1 = [] ∧
      (cleanup_stale_pids env st).2.writes = st.writes) := by
  refine ⟨?_, ?_, ?_⟩
  · intro h
    simp [load_pids, h]
  · intro h
    simp [load_pids, h]
  · intro h
    have hsm : storeMap st = [] := by
      rcases h with h | h <;> simp [storeMap, load_pids, h]
    constructor
    · rw [cleanup_fst, hsm]
      rfl
    · have hnil : (storeMap st).filter (fun e => !(env.alive e.2)) = [] := by
        rw [hsm]
        rfl
      rw [cleanup_nostale env st hnil]
      exact load_pids_writes st

/-- Witness for C8 on an unparsable store file. -/
theorem load_selfheal_witness :
    corruptSt.file = FileState.corrupt ∧
    (load_pids corruptSt).1 = [] ∧
    (load_pids corruptSt).2.out = corruptSt.out ++ [warnCorrupt] :=
  ⟨rfl, ((load_selfheal baseEnv corruptSt).2.1 rfl).1,
   ((load_selfheal baseEnv corruptSt).2.1 rfl).2.1⟩

/-- C9: the failing interleaving.  `save_pids` is an unguarded whole-file
overwrite — no advisory lock across the load-modify-save cycle and no
atomic replace-on-write — so two overlapping invocations lose an update:
invocation A stops jira and its save persists the removal, but invocation
B, which loaded before A saved, then overwrites the file and resurrects
jira while dropping only its own entry.  The final store silently undoes
A's confirmed update. -/
theorem pid_store_lost_update :
    (save_pids baseEnv (erasePid (load_pids twoSt).1 "jira") twoSt).file
      = FileState.good [("chronosphere", 2)] ∧
    raceFinal.file = FileState.good [("jira", 1)] ∧
    findPid (storeMap raceFinal) "jira" = some 1 :=
  ⟨by decide, by decide, by decide⟩

/-- C10: `save_pids` never raises — a failed write is swallowed with a
warning — so a start whose spawned child survives the grace second
reports success even though the new PidRecord was never persisted: the
durable file is byte-for-byte unchanged while the operation returns
success. -/
theorem start_success_without_persist (env : Env) (st : St) (s : String) (info : SpawnInfo)
    (hfail : env.saveOk = false)
    (hval : validate_service env s = true)
    (h0 : findPid (cleanup_stale_pids env st).1 s = none)
    (hspawn : env.spawn s = some info)
    (hok : info.pollAfterGrace = none) :
    (start_service env s st).1 = true ∧
    (start_service env s st).2.file = st.file ∧
    warnSaveFail ∈ (start_service env s st).2.out := by
  have hbr : start_service env s st
      = (true, save_pids env (setPid (cleanup_stale_pids env st).1 s info.pid)
          (cleanup_stale_pids env st).2) := by
    simp only [start_service, hval, if_true, h0, start_spawn, hspawn, hok]
  rw [hbr]
  refine ⟨rfl, ?_, ?_⟩
  · dsimp only
    rw [save_pids_file_fail env _ _ hfail]
    exact cleanup_file_savefail env st hfail
  · dsimp only
    rw [save_pids_out_fail env _ _ hfail]
    simp

/-- Witness for C10: jira spawns a healthy child while every write fails;
start still reports success and the store file stays empty. -/
theorem start_success_without_persist_witness :
    noSaveEnv.saveOk = false ∧
    (start_service noSaveEnv "jira" emptySt).1 = true ∧
    (start_service noSaveEnv "jira" emptySt).2.file = emptySt.file :=
  ⟨rfl,
   (start_success_without_persist noSaveEnv emptySt "jira" freshSpawn rfl (by decide)
      (by decide) rfl rfl).1,
   (start_success_without_persist noSaveEnv emptySt "jira" freshSpawn rfl (by decide)
      (by decide) rfl rfl).2.1⟩
